import Mathlib

/-!
Verification of the `X402Billing` billing core (`contracts/X402Billing.sol`,
Solidity ^0.8.20) and the backend request verifier
(`backend/server.js`, `verifySignedRequest`) of the x402-demo repository.

The contract is embedded shallowly: `bytes32` identifiers, `address`es and
`uint256` values are modelled as `Nat`; Solidity mappings (which default every
absent key to the zero value) are total functions out of `Nat`; each external
function becomes a Lean function `BillingState → ... → Except Err BillingState`
where `Except.error` models a revert (the whole transaction, including any
intermediate writes, is rolled back, so an erroring call yields no new state).
Solidity ^0.8 arithmetic is checked: `+` and `*` revert on overflow past
`2^256 - 1`, which `addU`/`mulU` encode explicitly.
-/

namespace X402

/-- `2^256`: Solidity ^0.8 `uint256` arithmetic reverts (panics) when a result
would reach this bound. -/
def UMAX : Nat := 2 ^ 256

/-- Revert reasons of `X402Billing.sol`, one constructor per `require` message,
plus the implicit checked-arithmetic panic of Solidity ^0.8. -/
inductive Err where
  | apiAlreadyExists      -- "API already exists"
  | invalidPaymentToken   -- "Invalid payment token"
  | invalidPrice          -- "Invalid price"
  | notApiProvider        -- "Not API provider" (the onlyProvider modifier)
  | apiNotFound           -- "API not found"
  | apiNotActive          -- "API not active"
  | unitsMustBePositive   -- "Units must be > 0"
  | invalidConsumer       -- "Invalid consumer"
  | insufficientPrepaid   -- "Insufficient prepaid units"
  | usageAlreadyExists    -- "Usage already exists"
  | usageNotSettleable    -- "Usage not reportable/settleable"
  | invalidTo             -- "Invalid to"
  | invalidAmount         -- "Invalid amount"
  | tokenTransferFailed   -- "Token transfer failed"
  | arithmeticOverflow    -- Solidity ^0.8 checked-arithmetic panic
deriving DecidableEq, Repr

/-- The spec's error taxonomy (§7). -/
inductive ErrKind where
  | alreadyExists
  | invalidArgument
  | notFound
  | unauthorized
  | inactive
  | insufficientBalance
  | invalidState
  | duplicateUsage
  | transferFailed
  | overflowPanic
deriving DecidableEq, Repr

/-- Classification of each concrete revert reason under the spec's taxonomy. -/
def Err.kind : Err → ErrKind
  | .apiAlreadyExists => .alreadyExists
  | .invalidPaymentToken => .invalidArgument
  | .invalidPrice => .invalidArgument
  | .notApiProvider => .unauthorized
  | .apiNotFound => .notFound
  | .apiNotActive => .inactive
  | .unitsMustBePositive => .invalidArgument
  | .invalidConsumer => .invalidArgument
  | .insufficientPrepaid => .insufficientBalance
  | .usageAlreadyExists => .duplicateUsage
  | .usageNotSettleable => .invalidState
  | .invalidTo => .invalidArgument
  | .invalidAmount => .invalidArgument
  | .tokenTransferFailed => .transferFailed
  | .arithmeticOverflow => .overflowPanic

/-- Checked `uint256` addition (Solidity ^0.8 semantics). -/
def addU (a b : Nat) : Except Err Nat :=
  if a + b < UMAX then .ok (a + b) else .error .arithmeticOverflow

/-- Checked `uint256` multiplication (Solidity ^0.8 semantics). -/
def mulU (a b : Nat) : Except Err Nat :=
  if a * b < UMAX then .ok (a * b) else .error .arithmeticOverflow

/-- `struct ApiConfig` of `X402Billing.sol`. -/
structure ApiConfig where
  provider : Nat
  paymentToken : Nat
  pricePerUnit : Nat
  metadataURI : String
  active : Bool
deriving DecidableEq, Repr

/-- The zero value a Solidity mapping yields for an absent `apiId`. -/
def ApiConfig.zero : ApiConfig := ⟨0, 0, 0, "", false⟩

/-- `enum UsageStatus { None, Reported, Settled }`. -/
inductive UsageStatus where
  | None
  | Reported
  | Settled
deriving DecidableEq, Repr

/-- `struct UsageRecord` of `X402Billing.sol`. -/
structure UsageRecord where
  apiId : Nat
  consumer : Nat
  units : Nat
  pricePerUnitSnapshot : Nat
  paymentToken : Nat
  status : UsageStatus
  offchainRef : String
deriving DecidableEq, Repr

/-- The zero value a Solidity mapping yields for an absent `usageId`;
its `status` is `UsageStatus.None`. -/
def UsageRecord.zero : UsageRecord := ⟨0, 0, 0, 0, 0, .None, ""⟩

/-- The contract's own address (`address(this)`), custodian of prepaid tokens.
Any fixed nonzero value serves; the theorems never depend on which. -/
def contractAddr : Nat := 402

/-- Storage of `X402Billing` plus the balance books of the ERC20 payment
tokens it interacts with. Mappings are total functions (Solidity mappings
default absent keys to the zero value). -/
structure BillingState where
  apis : Nat → ApiConfig                -- _apis        : apiId ↦ config
  prepaid : Nat → Nat → Nat             -- _prepaidUnits: apiId ↦ consumer ↦ units
  providerBalances : Nat → Nat          -- _providerBalances : apiId ↦ amount
  usageRecords : Nat → UsageRecord      -- _usageRecords: usageId ↦ record
  tokenBal : Nat → Nat → Nat            -- token ↦ holder ↦ ERC20 balance

/-- Pointwise single-key update of a mapping. -/
def upd {α : Type} (f : Nat → α) (k : Nat) (v : α) : Nat → α :=
  fun x => if x = k then v else f x

/-- Pointwise single-key update of a two-level mapping. -/
def upd2 {α : Type} (f : Nat → Nat → α) (k₁ k₂ : Nat) (v : α) : Nat → Nat → α :=
  fun x y => if x = k₁ ∧ y = k₂ then v else f x y

/-- Modelled from the spec: the ERC20 payment token (`MockToken.sol`, which the
repository references but whose source is not under `src/`) — §4.2: prepayment
"atomically moves `amount` of the payment unit from `payer` to the ledger's
custody (this transfer ... must fully succeed or the whole operation must fail
— no partial credit)". The transfer succeeds iff the sender holds at least
`amount`, and moves exactly `amount` from `payer` to `to`. -/
def tokenTransferFrom (s : BillingState) (token payer dest amount : Nat) :
    Except Err BillingState :=
  if amount ≤ s.tokenBal token payer then
    let b₁ := upd2 s.tokenBal token payer (s.tokenBal token payer - amount)
    let b₂ := upd2 b₁ token dest (b₁ token dest + amount)
    .ok { s with tokenBal := b₂ }
  else .error .tokenTransferFailed

/-- Modelled from the spec: `IERC20.transfer` out of the contract's custody,
used by `withdrawProviderRevenue`; same external-collaborator contract as
`tokenTransferFrom`, with the contract itself as sender. -/
def tokenTransfer (s : BillingState) (token dest amount : Nat) :
    Except Err BillingState :=
  tokenTransferFrom s token contractAddr dest amount

/-- `registerApi(apiId, paymentToken, pricePerUnit, metadataURI)`;
`caller` is `msg.sender`. -/
def registerApi (s : BillingState) (caller apiId paymentToken pricePerUnit : Nat)
    (metadataURI : String) : Except Err BillingState :=
  if (s.apis apiId).provider ≠ 0 then .error .apiAlreadyExists
  else if paymentToken = 0 then .error .invalidPaymentToken
  else if pricePerUnit = 0 then .error .invalidPrice
  else .ok { s with
    apis := upd s.apis apiId ⟨caller, paymentToken, pricePerUnit, metadataURI, true⟩ }

/-- `updateApiConfig(apiId, pricePerUnit, metadataURI, active)`. The
`onlyProvider` modifier runs before the body's `require(cfg.provider !=
address(0))`. The body validates nothing else: in particular it accepts
`pricePerUnit = 0`. -/
def updateApiConfig (s : BillingState) (caller apiId pricePerUnit : Nat)
    (metadataURI : String) (active : Bool) : Except Err BillingState :=
  if (s.apis apiId).provider ≠ caller then .error .notApiProvider
  else if (s.apis apiId).provider = 0 then .error .apiNotFound
  else .ok { s with
    apis := upd s.apis apiId
      { s.apis apiId with
          pricePerUnit := pricePerUnit, metadataURI := metadataURI, active := active } }

/-- `prepay(apiId, units, consumer)`; `caller` is `msg.sender` (the payer).
`amount = cfg.pricePerUnit * units` uses the API's current price. -/
def prepay (s : BillingState) (caller apiId units consumer : Nat) :
    Except Err BillingState :=
  if (s.apis apiId).provider = 0 then .error .apiNotFound
  else if (s.apis apiId).active = false then .error .apiNotActive
  else if units = 0 then .error .unitsMustBePositive
  else if consumer = 0 then .error .invalidConsumer
  else
    match mulU (s.apis apiId).pricePerUnit units with
    | .error e => .error e
    | .ok amount =>
      match tokenTransferFrom s ((s.apis apiId).paymentToken) caller contractAddr amount with
      | .error e => .error e
      | .ok s₁ =>
        match addU (s₁.prepaid apiId consumer) units with
        | .error e => .error e
        | .ok np => .ok { s₁ with prepaid := upd2 s₁.prepaid apiId consumer np }

/-- The preimage of the `keccak256(abi.encodePacked(...))` derivation in
`reportUsage`: caller-supplied fields plus the environment-supplied
`block.timestamp` and `block.number`. -/
structure UsageKey where
  apiId : Nat
  consumer : Nat
  units : Nat
  offchainRef : String
  timestamp : Nat
  blockNumber : Nat
deriving DecidableEq, Repr

/-- `reportUsage(apiId, consumer, units, offchainRef)`. `keccak` abstracts the
EVM's `keccak256` digest (every theorem below holds for an arbitrary digest
function); `timestamp`/`blockNumber` are the environment's `block.timestamp`
and `block.number`. Returns the new state and the `usageId` the function
returns (also carried by the `UsageReported` event). The balance decrement
written before the `"Usage already exists"` check is rolled back when that
check reverts, which the all-or-nothing `Except` result models. -/
def reportUsage (keccak : UsageKey → Nat) (s : BillingState)
    (apiId consumer units : Nat) (offchainRef : String)
    (timestamp blockNumber : Nat) : Except Err (BillingState × Nat) :=
  if (s.apis apiId).provider = 0 then .error .apiNotFound
  else if units = 0 then .error .unitsMustBePositive
  else if s.prepaid apiId consumer < units then .error .insufficientPrepaid
  else if (s.usageRecords (keccak ⟨apiId, consumer, units, offchainRef, timestamp,
      blockNumber⟩)).status ≠ .None then .error .usageAlreadyExists
  else .ok
    ({ s with
        prepaid := upd2 s.prepaid apiId consumer (s.prepaid apiId consumer - units)
        usageRecords := upd s.usageRecords
          (keccak ⟨apiId, consumer, units, offchainRef, timestamp, blockNumber⟩)
          ⟨apiId, consumer, units, (s.apis apiId).pricePerUnit,
            (s.apis apiId).paymentToken, .Reported, offchainRef⟩ },
      keccak ⟨apiId, consumer, units, offchainRef, timestamp, blockNumber⟩)

/-- `settleUsage(usageId)`: requires `status == Reported`, credits the
provider's balance by `units * pricePerUnitSnapshot` (the snapshot, not the
live price), and marks the record `Settled`. -/
def settleUsage (s : BillingState) (usageId : Nat) : Except Err BillingState :=
  if (s.usageRecords usageId).status ≠ .Reported then .error .usageNotSettleable
  else if (s.apis (s.usageRecords usageId).apiId).provider = 0 then .error .apiNotFound
  else
    match mulU (s.usageRecords usageId).units (s.usageRecords usageId).pricePerUnitSnapshot with
    | .error e => .error e
    | .ok amount =>
      match addU (s.providerBalances (s.usageRecords usageId).apiId) amount with
      | .error e => .error e
      | .ok nb => .ok { s with
          providerBalances := upd s.providerBalances (s.usageRecords usageId).apiId nb,
          usageRecords := upd s.usageRecords usageId
            { s.usageRecords usageId with status := .Settled } }

/-- `withdrawProviderRevenue(apiId, amount, to)`, guarded by `onlyProvider`.
The balance is decremented before the external `IERC20.transfer`; a failing
transfer reverts the whole call, rolling the decrement back. -/
def withdrawProviderRevenue (s : BillingState) (caller apiId amount dest : Nat) :
    Except Err BillingState :=
  if (s.apis apiId).provider ≠ caller then .error .notApiProvider
  else if dest = 0 then .error .invalidTo
  else if ¬ (0 < amount ∧ amount ≤ s.providerBalances apiId) then .error .invalidAmount
  else
    tokenTransfer
      { s with providerBalances := upd s.providerBalances apiId (s.providerBalances apiId - amount) }
      ((s.apis apiId).paymentToken) dest amount

/-- One ledger transaction: the six external mutating entry points of
`X402Billing`, each with its `msg.sender` and (for `reportUsage`) the block
environment. -/
inductive Op where
  | register (caller apiId paymentToken pricePerUnit : Nat) (metadataURI : String)
  | update (caller apiId pricePerUnit : Nat) (metadataURI : String) (active : Bool)
  | prepayOp (caller apiId units consumer : Nat)
  | report (apiId consumer units : Nat) (offchainRef : String) (timestamp blockNumber : Nat)
  | settle (usageId : Nat)
  | withdraw (caller apiId amount dest : Nat)

/-- Dispatch one transaction. -/
def step (keccak : UsageKey → Nat) (s : BillingState) : Op → Except Err BillingState
  | .register caller apiId tok price meta => registerApi s caller apiId tok price meta
  | .update caller apiId price meta active => updateApiConfig s caller apiId price meta active
  | .prepayOp caller apiId units consumer => prepay s caller apiId units consumer
  | .report apiId consumer units r ts bn =>
      (reportUsage keccak s apiId consumer units r ts bn).map Prod.fst
  | .settle usageId => settleUsage s usageId
  | .withdraw caller apiId amount dest => withdrawProviderRevenue s caller apiId amount dest

/-- Chain-level semantics of one transaction: a revert leaves the state as it
was. -/
def exec (keccak : UsageKey → Nat) (s : BillingState) (op : Op) : BillingState :=
  match step keccak s op with
  | .ok s' => s'
  | .error _ => s

/-- Run a sequence of transactions. -/
def run (keccak : UsageKey → Nat) (s : BillingState) (ops : List Op) : BillingState :=
  ops.foldl (exec keccak) s

/-- The empty deployment state: every mapping at its zero value. -/
def s0 : BillingState :=
  { apis := fun _ => ApiConfig.zero
    prepaid := fun _ _ => 0
    providerBalances := fun _ => 0
    usageRecords := fun _ => UsageRecord.zero
    tokenBal := fun _ _ => 0 }

/-! ### The backend request verifier (`backend/server.js`, `verifySignedRequest`) -/

/-- The JSON request body destructured by `verifySignedRequest`: each field may
be absent. `nonce` and `deadline` arrive as numbers (modelled as `Nat`),
`consumer` and `signature` as strings. -/
structure ReqBody where
  consumer : Option String
  nonce : Option Nat
  deadline : Option Nat
  signature : Option String
deriving DecidableEq, Repr

/-- The errors `verifySignedRequest` throws, one per `throw new Error(...)`. -/
inductive VerifyErr where
  | missingOrInvalidConsumer   -- "Missing or invalid consumer"
  | missingFields              -- "Missing nonce/deadline/signature"
  | signatureExpired           -- "Signature expired"
  | invalidSignature           -- "Invalid signature"
deriving DecidableEq, Repr

/-- The EIP-712 `Call` message the backend reconstructs before recovery. -/
structure CallMessage where
  consumer : String
  apiId : Nat
  nonce : Nat
  deadline : Nat
deriving DecidableEq, Repr

/-- JavaScript truthiness of a possibly-absent number: `undefined` and `0` are
falsy. -/
def jsTruthyNat : Option Nat → Bool
  | none => false
  | some n => n ≠ 0

/-- JavaScript truthiness of a possibly-absent string: `undefined` and `""` are
falsy. -/
def jsTruthyStr : Option String → Bool
  | none => false
  | some s => s ≠ ""

/-- `verifySignedRequest(body, expectedApiId)` of `backend/server.js`.
`isAddress` abstracts `ethers.isAddress` and `recover` abstracts
`ethers.verifyTypedData` under the fixed EIP-712 domain (both are library
calls external to the repository); every theorem below holds for arbitrary
such functions. `nowSec` is `Math.floor(Date.now() / 1000)`. Checks run in
source order: consumer truthiness/validity, then truthiness of
`nonce`/`deadline`/`signature`, then `deadline < nowSec`, then recovery. -/
def verifySignedRequest (isAddress : String → Bool)
    (recover : CallMessage → String → String) (body : ReqBody)
    (expectedApiId : Nat) (nowSec : Nat) : Except VerifyErr String :=
  match body.consumer with
  | none => .error .missingOrInvalidConsumer
  | some c =>
    if c = "" ∨ isAddress c = false then .error .missingOrInvalidConsumer
    else
      match body.nonce, body.deadline, body.signature with
      | some nonce, some deadline, some sig =>
        if nonce = 0 ∨ deadline = 0 ∨ sig = "" then .error .missingFields
        else if deadline < nowSec then .error .signatureExpired
        else if (recover ⟨c, expectedApiId, nonce, deadline⟩ sig).toLower ≠ c.toLower then
          .error .invalidSignature
        else .ok c
      | _, _, _ => .error .missingFields

/-! ### Concrete scenario states used by the witnesses -/

/-- Position of a status along the `None → Reported → Settled` lifecycle. -/
def UsageStatus.rank : UsageStatus → Nat
  | .None => 0
  | .Reported => 1
  | .Settled => 2

/-- A concrete stand-in digest function for witnesses (the theorems hold for
every digest function). -/
def kW : UsageKey → Nat := fun _ => 77

/-- Witness state: API `1` registered by provider `3` with payment token `2`
and price `5`; consumer `9` holds `4` prepaid units and `100` tokens. -/
def sW : BillingState :=
  { apis := fun a => if a = 1 then ⟨3, 2, 5, "m", true⟩ else ApiConfig.zero
    prepaid := fun a c => if a = 1 ∧ c = 9 then 4 else 0
    providerBalances := fun _ => 0
    usageRecords := fun _ => UsageRecord.zero
    tokenBal := fun t h => if t = 2 ∧ h = 9 then 100 else 0 }

/-- The state produced by a successful `reportUsage` of 2 units on `sW`. -/
def wRep : BillingState :=
  match reportUsage kW sW 1 9 2 "r" 10 20 with
  | .ok (s, _) => s
  | .error _ => s0

/-- The `usageId` returned by that `reportUsage` call. -/
def wRepId : Nat :=
  match reportUsage kW sW 1 9 2 "r" 10 20 with
  | .ok (_, i) => i
  | .error _ => 0

/-- The state produced by settling that usage record. -/
def wSet : BillingState :=
  match settleUsage wRep wRepId with
  | .ok s => s
  | .error _ => s0

/-- The state produced by a successful `prepay` of 2 units by payer `9`. -/
def wPre : BillingState :=
  match prepay sW 9 1 2 9 with
  | .ok s => s
  | .error _ => s0

/-- Witness state for withdrawal: like `sW` but provider `3` has `10` of
withdrawable revenue on API `1` and the contract custodies `50` tokens. -/
def sWD : BillingState :=
  { sW with
    providerBalances := fun a => if a = 1 then 10 else 0
    tokenBal := fun t h => if t = 2 ∧ h = contractAddr then 50 else 0 }

/-- The state produced by provider `3` withdrawing `10` from `sWD`. -/
def wWd : BillingState :=
  match withdrawProviderRevenue sWD 3 1 10 9 with
  | .ok s => s
  | .error _ => s0

/-- The state produced by registering API `1` (provider `3`, token `2`,
price `5`) on the empty state. -/
def regS : BillingState :=
  match registerApi s0 3 1 2 5 "m" with
  | .ok s => s
  | .error _ => s0

/-- The state produced by the provider then updating API `1`'s price to `0`
via `updateApiConfig`. -/
def updS : BillingState :=
  match updateApiConfig regS 3 1 0 "m" true with
  | .ok s => s
  | .error _ => s0

/-- Witness state for the overflow claim: API `1` registered with price
`2^255`. -/
def sOV : BillingState :=
  { sW with apis := fun a => if a = 1 then ⟨3, 2, 2 ^ 255, "m", true⟩ else ApiConfig.zero }

/-! ### Helper lemmas -/

theorem tokenTransferFrom_ok {s : BillingState} {token payer dest amount : Nat}
    {s' : BillingState} (h : tokenTransferFrom s token payer dest amount = .ok s') :
    s'.apis = s.apis ∧ s'.prepaid = s.prepaid ∧ s'.providerBalances = s.providerBalances
      ∧ s'.usageRecords = s.usageRecords ∧ amount ≤ s.tokenBal token payer := by
  unfold tokenTransferFrom at h
  split at h
  · cases h
    exact ⟨rfl, rfl, rfl, rfl, by assumption⟩
  · cases h

theorem registerApi_ok {s : BillingState} {caller apiId tok price : Nat} {meta : String}
    {s' : BillingState} (h : registerApi s caller apiId tok price meta = .ok s') :
    s'.usageRecords = s.usageRecords := by
  unfold registerApi at h
  split at h
  · cases h
  · split at h
    · cases h
    · split at h
      · cases h
      · cases h; rfl

theorem updateApiConfig_ok {s : BillingState} {caller apiId price : Nat} {meta : String}
    {active : Bool} {s' : BillingState}
    (h : updateApiConfig s caller apiId price meta active = .ok s') :
    s'.usageRecords = s.usageRecords := by
  unfold updateApiConfig at h
  split at h
  · cases h
  · split at h
    · cases h
    · cases h; rfl

theorem prepay_ok_usageRecords {s : BillingState} {caller apiId units consumer : Nat}
    {s' : BillingState} (h : prepay s caller apiId units consumer = .ok s') :
    s'.usageRecords = s.usageRecords := by
  unfold prepay at h
  repeat' split at h
  all_goals try cases h
  all_goals dsimp only
  all_goals exact (tokenTransferFrom_ok (by assumption)).2.2.2.1

theorem withdraw_ok_usageRecords {s : BillingState} {caller apiId amount dest : Nat}
    {s' : BillingState}
    (h : withdrawProviderRevenue s caller apiId amount dest = .ok s') :
    s'.usageRecords = s.usageRecords := by
  unfold withdrawProviderRevenue tokenTransfer at h
  repeat' split at h
  all_goals try cases h
  all_goals exact (tokenTransferFrom_ok h).2.2.2.1

theorem mulU_ok {a b c : Nat} (h : mulU a b = .ok c) : c = a * b ∧ a * b < UMAX := by
  unfold mulU at h
  split at h
  · cases h; exact ⟨rfl, by assumption⟩
  · cases h

theorem addU_ok {a b c : Nat} (h : addU a b = .ok c) : c = a + b ∧ a + b < UMAX := by
  unfold addU at h
  split at h
  · cases h; exact ⟨rfl, by assumption⟩
  · cases h

theorem reportUsage_ok_char {keccak : UsageKey → Nat} {s : BillingState}
    {apiId consumer units : Nat} {offchainRef : String} {ts bn : Nat}
    {s' : BillingState} {usageId : Nat}
    (h : reportUsage keccak s apiId consumer units offchainRef ts bn = .ok (s', usageId)) :
    (s.apis apiId).provider ≠ 0
    ∧ units ≠ 0
    ∧ units ≤ s.prepaid apiId consumer
    ∧ (s.usageRecords usageId).status = .None
    ∧ usageId = keccak ⟨apiId, consumer, units, offchainRef, ts, bn⟩
    ∧ s'.prepaid = upd2 s.prepaid apiId consumer (s.prepaid apiId consumer - units)
    ∧ s'.usageRecords = upd s.usageRecords usageId
        ⟨apiId, consumer, units, (s.apis apiId).pricePerUnit,
          (s.apis apiId).paymentToken, .Reported, offchainRef⟩
    ∧ s'.apis = s.apis ∧ s'.providerBalances = s.providerBalances := by
  unfold reportUsage at h
  repeat' split at h
  all_goals try cases h
  refine ⟨by assumption, by assumption, by omega, not_ne_iff.mp (by assumption),
    rfl, rfl, rfl, rfl, rfl⟩

theorem settleUsage_ok_char {s : BillingState} {usageId : Nat} {s' : BillingState}
    (h : settleUsage s usageId = .ok s') :
    (s.usageRecords usageId).status = .Reported
    ∧ s'.usageRecords = upd s.usageRecords usageId
        { s.usageRecords usageId with status := .Settled }
    ∧ s'.providerBalances = upd s.providerBalances (s.usageRecords usageId).apiId
        (s.providerBalances (s.usageRecords usageId).apiId
          + (s.usageRecords usageId).units * (s.usageRecords usageId).pricePerUnitSnapshot)
    ∧ s'.apis = s.apis ∧ s'.prepaid = s.prepaid := by
  unfold settleUsage at h
  repeat' split at h
  all_goals try cases h
  rename_i hst hpr x₁ amount hmul x₂ nb hadd
  obtain ⟨rfl, _⟩ := mulU_ok hmul
  obtain ⟨rfl, _⟩ := addU_ok hadd
  exact ⟨not_ne_iff.mp hst, rfl, rfl, rfl, rfl⟩

theorem tokenTransferFrom_ok_bal {s : BillingState} {token payer dest amount : Nat}
    {s' : BillingState} (h : tokenTransferFrom s token payer dest amount = .ok s') :
    s'.tokenBal =
      upd2 (upd2 s.tokenBal token payer (s.tokenBal token payer - amount)) token dest
        ((upd2 s.tokenBal token payer (s.tokenBal token payer - amount)) token dest
          + amount) := by
  unfold tokenTransferFrom at h
  split at h
  · cases h; rfl
  · cases h

theorem withdraw_ok_char {s : BillingState} {caller apiId amount dest : Nat}
    {s' : BillingState}
    (h : withdrawProviderRevenue s caller apiId amount dest = .ok s') :
    (s.apis apiId).provider = caller ∧ dest ≠ 0
    ∧ 0 < amount ∧ amount ≤ s.providerBalances apiId
    ∧ amount ≤ s.tokenBal ((s.apis apiId).paymentToken) contractAddr
    ∧ s'.providerBalances = upd s.providerBalances apiId (s.providerBalances apiId - amount)
    ∧ s'.apis = s.apis ∧ s'.prepaid = s.prepaid ∧ s'.usageRecords = s.usageRecords := by
  unfold withdrawProviderRevenue tokenTransfer at h
  repeat' split at h
  all_goals try cases h
  rename_i h1 h2 h3
  obtain ⟨ha, hp, hpb, hur, hle⟩ := tokenTransferFrom_ok h
  have hamt := not_not.mp h3
  exact ⟨not_ne_iff.mp h1, h2, hamt.1, hamt.2, hle, hpb, ha, hp, hur⟩

theorem exec_step_usage (keccak : UsageKey → Nat) (s : BillingState) (op : Op) (u : Nat) :
    (s.usageRecords u).status.rank ≤ ((exec keccak s op).usageRecords u).status.rank
    ∧ ((s.usageRecords u).status = .Settled →
        (exec keccak s op).usageRecords u = s.usageRecords u) := by
  unfold exec
  cases hstep : step keccak s op with
  | error e => exact ⟨le_refl _, fun _ => rfl⟩
  | ok s' =>
    dsimp only
    cases op with
    | register caller apiId tok price meta =>
        simp only [step] at hstep
        rw [registerApi_ok hstep]
        exact ⟨le_refl _, fun _ => rfl⟩
    | update caller apiId price meta active =>
        simp only [step] at hstep
        rw [updateApiConfig_ok hstep]
        exact ⟨le_refl _, fun _ => rfl⟩
    | prepayOp caller apiId units consumer =>
        simp only [step] at hstep
        rw [prepay_ok_usageRecords hstep]
        exact ⟨le_refl _, fun _ => rfl⟩
    | withdraw caller apiId amount dest =>
        simp only [step] at hstep
        rw [withdraw_ok_usageRecords hstep]
        exact ⟨le_refl _, fun _ => rfl⟩
    | report apiId consumer units offchainRef ts bn =>
        simp only [step] at hstep
        cases hr : reportUsage keccak s apiId consumer units offchainRef ts bn with
        | error e => rw [hr] at hstep; cases hstep
        | ok p =>
          obtain ⟨s₁, usageId⟩ := p
          rw [hr] at hstep
          cases hstep
          obtain ⟨-, -, -, hnone, -, -, hur, -, -⟩ := reportUsage_ok_char hr
          rw [hur]
          by_cases hu : u = usageId
          · subst hu
            rw [hnone]
            constructor
            · simp [upd, UsageStatus.rank]
            · intro hset
              cases hset
          · constructor
            · simp [upd, hu]
            · intro _
              simp [upd, hu]
    | settle usageId =>
        simp only [step] at hstep
        obtain ⟨hrep, hur, -, -, -⟩ := settleUsage_ok_char hstep
        rw [hur]
        by_cases hu : u = usageId
        · subst hu
          rw [hrep]
          constructor
          · simp [upd, UsageStatus.rank]
          · intro hset
            cases hset
        · constructor
          · simp [upd, hu]
          · intro _
            simp [upd, hu]

/-! ### Claim theorems -/

/-- **C1.** `reportUsage` fails whenever `prepaidUnits(apiId, consumer) < units`
(the chain-level transaction semantics `exec` then leaves the balance exactly
as it was); after every successful call the prepaid balance decreases by
exactly `units`, and the record stored under the returned `usageId` has status
`Reported` with `priceSnapshot` equal to the API's price at report time. -/
theorem reportUsage_spec (keccak : UsageKey → Nat) (s : BillingState)
    (apiId consumer units : Nat) (offchainRef : String) (ts bn : Nat) :
    (s.prepaid apiId consumer < units →
      (∃ e, reportUsage keccak s apiId consumer units offchainRef ts bn = .error e)
      ∧ (exec keccak s (.report apiId consumer units offchainRef ts bn)).prepaid
          apiId consumer = s.prepaid apiId consumer)
    ∧ (∀ s' usageId,
        reportUsage keccak s apiId consumer units offchainRef ts bn = .ok (s', usageId) →
          s'.prepaid apiId consumer + units = s.prepaid apiId consumer
          ∧ (s'.usageRecords usageId).status = .Reported
          ∧ (s'.usageRecords usageId).pricePerUnitSnapshot
              = (s.apis apiId).pricePerUnit) := by
  constructor
  · intro hlt
    cases hr : reportUsage keccak s apiId consumer units offchainRef ts bn with
    | error e =>
        refine ⟨⟨e, rfl⟩, ?_⟩
        simp [exec, step, hr, Except.map]
    | ok p =>
        obtain ⟨s', usageId⟩ := p
        have := (reportUsage_ok_char hr).2.2.1
        omega
  · intro s' usageId h
    obtain ⟨-, -, hle, -, -, hpre, hur, -, -⟩ := reportUsage_ok_char h
    refine ⟨?_, ?_, ?_⟩
    · rw [hpre]
      simp only [upd2, and_self, if_pos]
      omega
    · rw [hur]
      simp [upd]
    · rw [hur]
      simp [upd]

/-- Witness for `reportUsage_spec`: on `sW` (balance 4), reporting 10 units
leaves the balance at 4; reporting 2 units succeeds into `wRep` with the
record stored under `wRepId` at snapshot price 5. -/
theorem reportUsage_spec_witness :
    (exec kW sW (.report 1 9 10 "rr" 10 20)).prepaid 1 9 = sW.prepaid 1 9
    ∧ (wRep.prepaid 1 9 + 2 = sW.prepaid 1 9
        ∧ (wRep.usageRecords wRepId).status = .Reported
        ∧ (wRep.usageRecords wRepId).pricePerUnitSnapshot = (sW.apis 1).pricePerUnit) :=
  ⟨((reportUsage_spec kW sW 1 9 10 "rr" 10 20).1 (by decide)).2,
   (reportUsage_spec kW sW 1 9 2 "r" 10 20).2 wRep wRepId rfl⟩

/-- **C2.** `settleUsage` succeeds at most once per `usageId`: after a success
the second call fails with the `InvalidState`-kind error, and the success
credits `RevenueBalance(apiId)` by exactly `units × priceSnapshot` as stored
in the record at settlement time — the expression never mentions the live
`pricePerUnit`, so intervening `updateApiConfig` price changes (any state `s`
is quantified over) cannot affect the credited amount. -/
theorem settleUsage_spec (s : BillingState) (usageId : Nat) (s' : BillingState)
    (h : settleUsage s usageId = .ok s') :
    settleUsage s' usageId = .error .usageNotSettleable
    ∧ Err.usageNotSettleable.kind = ErrKind.invalidState
    ∧ s'.providerBalances ((s.usageRecords usageId).apiId)
        = s.providerBalances ((s.usageRecords usageId).apiId)
          + (s.usageRecords usageId).units
            * (s.usageRecords usageId).pricePerUnitSnapshot := by
  obtain ⟨hst, hur, hpb, -, -⟩ := settleUsage_ok_char h
  refine ⟨?_, rfl, ?_⟩
  · unfold settleUsage
    rw [hur]
    simp [upd]
  · rw [hpb]
    simp [upd]

/-- Witness for `settleUsage_spec`: settling `wRepId` on `wRep` yields `wSet`;
the second settlement fails with `InvalidState` and the provider balance grew
by `2 × 5`. -/
theorem settleUsage_spec_witness :
    settleUsage wSet wRepId = .error .usageNotSettleable
    ∧ Err.usageNotSettleable.kind = ErrKind.invalidState
    ∧ wSet.providerBalances ((wRep.usageRecords wRepId).apiId)
        = wRep.providerBalances ((wRep.usageRecords wRepId).apiId)
          + (wRep.usageRecords wRepId).units
            * (wRep.usageRecords wRepId).pricePerUnitSnapshot :=
  settleUsage_spec wRep wRepId wSet rfl

/-- **C7.** A successful `prepay(apiId, units, consumer)` by payer `caller`
increases `prepaidUnits(apiId, consumer)` by exactly `units` and moves exactly
`pricePerUnit × units` of the payment token out of the payer's balance, where
`pricePerUnit` is the API's price current at the time of the call. -/
theorem prepay_spec (s : BillingState) (caller apiId units consumer : Nat)
    (s' : BillingState) (h : prepay s caller apiId units consumer = .ok s')
    (hpc : caller ≠ contractAddr) :
    s'.prepaid apiId consumer = s.prepaid apiId consumer + units
    ∧ (s.apis apiId).pricePerUnit * units
        ≤ s.tokenBal ((s.apis apiId).paymentToken) caller
    ∧ s'.tokenBal ((s.apis apiId).paymentToken) caller
        = s.tokenBal ((s.apis apiId).paymentToken) caller
          - (s.apis apiId).pricePerUnit * units := by
  unfold prepay at h
  repeat' split at h
  all_goals try cases h
  rename_i h1 h2 h3 h4 x₁ amount hmul x₂ s₁ hxfer x₃ np hadd
  obtain ⟨rfl, -⟩ := mulU_ok hmul
  obtain ⟨rfl, -⟩ := addU_ok hadd
  obtain ⟨-, hpre, -, -, hle⟩ := tokenTransferFrom_ok hxfer
  have hbal := tokenTransferFrom_ok_bal hxfer
  refine ⟨?_, hle, ?_⟩
  · dsimp only
    rw [hpre]
    simp [upd2]
  · dsimp only
    rw [hbal]
    simp [upd2, hpc]

/-- Witness for `prepay_spec`: payer `9` prepaying 2 units on `sW` ends with
balance `4 + 2` and token balance `100 - 10`. -/
theorem prepay_spec_witness :
    wPre.prepaid 1 9 = sW.prepaid 1 9 + 2
    ∧ (sW.apis 1).pricePerUnit * 2 ≤ sW.tokenBal ((sW.apis 1).paymentToken) 9
    ∧ wPre.tokenBal ((sW.apis 1).paymentToken) 9
        = sW.tokenBal ((sW.apis 1).paymentToken) 9 - (sW.apis 1).pricePerUnit * 2 :=
  prepay_spec sW 9 1 2 9 wPre rfl (by decide)

/-- **C10.** `prepay` computes `pricePerUnit * units` with Solidity ^0.8
checked 256-bit arithmetic: when the mathematical product reaches `2^256` the
call reverts with the arithmetic panic instead of wrapping and crediting
units at a truncated price. -/
theorem prepay_overflow_checked (s : BillingState) (caller apiId units consumer : Nat)
    (hprov : (s.apis apiId).provider ≠ 0) (hact : (s.apis apiId).active = true)
    (hu : units ≠ 0) (hc : consumer ≠ 0)
    (hover : UMAX ≤ (s.apis apiId).pricePerUnit * units) :
    prepay s caller apiId units consumer = .error .arithmeticOverflow := by
  unfold prepay
  rw [if_neg hprov, if_neg (by simp [hact]), if_neg hu, if_neg hc]
  have hm : mulU (s.apis apiId).pricePerUnit units = .error .arithmeticOverflow := by
    unfold mulU
    rw [if_neg (by omega)]
  rw [hm]

/-- Witness for `prepay_overflow_checked`: on `sOV` (price `2^255`) prepaying
4 units overflows and reverts. -/
theorem prepay_overflow_checked_witness :
    UMAX ≤ (sOV.apis 1).pricePerUnit * 4
    ∧ prepay sOV 9 1 4 9 = .error .arithmeticOverflow :=
  ⟨by norm_num [sOV, UMAX],
   prepay_overflow_checked sOV 9 1 4 9 (by decide) rfl (by decide) (by decide)
     (by norm_num [sOV, UMAX])⟩

/-- **C3.** Ledger mutations are atomic on error: any transaction that reverts
leaves the whole state unchanged under the chain-level semantics `exec` (so a
`reportUsage` rejected with `InsufficientBalance` leaves the prepaid balance
as it was); `withdrawProviderRevenue` reverts whenever the custodian cannot
fund the external transfer (so the revenue balance is never decremented
without a successful transfer), and a successful withdrawal both moves the
tokens and decrements the revenue balance by exactly `amount`. -/
theorem ledger_atomicity (keccak : UsageKey → Nat) (s : BillingState) :
    (∀ op e, step keccak s op = .error e → exec keccak s op = s)
    ∧ (∀ caller apiId amount dest,
        s.tokenBal ((s.apis apiId).paymentToken) contractAddr < amount →
        ∃ e, withdrawProviderRevenue s caller apiId amount dest = .error e)
    ∧ (∀ caller apiId amount dest s',
        withdrawProviderRevenue s caller apiId amount dest = .ok s' →
        amount ≤ s.tokenBal ((s.apis apiId).paymentToken) contractAddr
        ∧ 0 < amount ∧ amount ≤ s.providerBalances apiId
        ∧ s'.providerBalances apiId = s.providerBalances apiId - amount) := by
  refine ⟨?_, ?_, ?_⟩
  · intro op e h
    simp [exec, h]
  · intro caller apiId amount dest hcust
    cases hw : withdrawProviderRevenue s caller apiId amount dest with
    | error e => exact ⟨e, rfl⟩
    | ok s' =>
        have := (withdraw_ok_char hw).2.2.2.2.1
        omega
  · intro caller apiId amount dest s' h
    obtain ⟨-, -, hpos, hble, hcust, hpb, -, -, -⟩ := withdraw_ok_char h
    refine ⟨hcust, hpos, hble, ?_⟩
    rw [hpb]
    simp [upd]

/-- Witness for `ledger_atomicity`: on `sW` (balance 4) the
`InsufficientBalance` revert of a 10-unit report leaves the state — and hence
the balance — untouched; on `sWD` the provider's withdrawal of 10 succeeds
into `wWd`, the custodian holding 50 ≥ 10, and zeroes the revenue balance. -/
theorem ledger_atomicity_witness :
    exec kW sW (.report 1 9 10 "rr" 10 20) = sW
    ∧ (10 ≤ sWD.tokenBal ((sWD.apis 1).paymentToken) contractAddr
        ∧ 0 < 10 ∧ 10 ≤ sWD.providerBalances 1
        ∧ wWd.providerBalances 1 = sWD.providerBalances 1 - 10) :=
  ⟨(ledger_atomicity kW sW).1 (.report 1 9 10 "rr" 10 20) .insufficientPrepaid rfl,
   (ledger_atomicity kW sWD).2.2 3 1 10 9 wWd rfl⟩

/-- **C4 (amended).** The `onlyProvider` check runs before any existence
check, so for any `apiId` whose stored provider differs from the caller —
including every unregistered `apiId` called by a nonzero identity —
`updateApiConfig` and `withdrawProviderRevenue` fail with the
`Unauthorized`-kind error (`"Not API provider"`), not `NotFound`; when the
caller is the provider and the destination is nonzero, `withdraw` fails with
the `InvalidArgument`-kind error (`"Invalid amount"`) whenever `amount = 0`
or `amount` exceeds the withdrawable balance. -/
theorem auth_errors (s : BillingState) (caller apiId price amount dest : Nat)
    (meta : String) (active : Bool) :
    ((s.apis apiId).provider ≠ caller →
      updateApiConfig s caller apiId price meta active = .error .notApiProvider
      ∧ withdrawProviderRevenue s caller apiId amount dest = .error .notApiProvider
      ∧ Err.notApiProvider.kind = ErrKind.unauthorized)
    ∧ ((s.apis apiId).provider = caller → dest ≠ 0 →
      (amount = 0 ∨ s.providerBalances apiId < amount) →
      withdrawProviderRevenue s caller apiId amount dest = .error .invalidAmount
      ∧ Err.invalidAmount.kind = ErrKind.invalidArgument) := by
  constructor
  · intro hne
    refine ⟨?_, ?_, rfl⟩
    · unfold updateApiConfig
      rw [if_pos hne]
    · unfold withdrawProviderRevenue
      rw [if_pos hne]
  · intro heq hdest hbad
    refine ⟨?_, rfl⟩
    unfold withdrawProviderRevenue
    rw [if_neg (by simp [heq]), if_neg hdest, if_pos (by omega)]

/-- Counterexample to **C4** as stated: `apiId = 5` is unregistered in the
empty state (`provider = 0`), yet `updateApiConfig` and `withdraw` by caller
`1` fail with the `Unauthorized`-kind `"Not API provider"` error of the
`onlyProvider` modifier, not with `NotFound`. -/
theorem auth_errors_counterexample :
    (s0.apis 5).provider = 0
    ∧ updateApiConfig s0 1 5 7 "m" true = .error .notApiProvider
    ∧ withdrawProviderRevenue s0 1 5 3 9 = .error .notApiProvider
    ∧ Err.notApiProvider.kind = ErrKind.unauthorized
    ∧ Err.notApiProvider.kind ≠ ErrKind.notFound :=
  ⟨rfl, rfl, rfl, rfl, by decide⟩

/-- Witness for `auth_errors`: caller `4` is not API `1`'s provider on `sW`
(Unauthorized on both entry points); provider `3` withdrawing `0` to a
nonzero destination gets `InvalidArgument`. -/
theorem auth_errors_witness :
    (updateApiConfig sW 4 1 7 "x" true = .error .notApiProvider
      ∧ withdrawProviderRevenue sW 4 1 1 9 = .error .notApiProvider
      ∧ Err.notApiProvider.kind = ErrKind.unauthorized)
    ∧ (withdrawProviderRevenue sW 3 1 0 9 = .error .invalidAmount
      ∧ Err.invalidAmount.kind = ErrKind.invalidArgument) :=
  ⟨(auth_errors sW 4 1 7 1 9 "x" true).1 (by decide),
   (auth_errors sW 3 1 7 0 9 "x" true).2 rfl (by decide) (Or.inl rfl)⟩

/-- **C5 (amended).** `registerApi` rejects a zero price with the
`InvalidArgument`-kind `"Invalid price"` error, but `updateApiConfig`
performs no price validation at all: the provider of any registered API can
set its `pricePerUnit` to `0`, so "every registered API has a positive price"
is not an invariant of reachable states. -/
theorem price_validation (s : BillingState) (caller apiId tokenAddr : Nat)
    (meta meta' : String) (active : Bool)
    (hfree : (s.apis apiId).provider = 0) (htok : tokenAddr ≠ 0) :
    registerApi s caller apiId tokenAddr 0 meta = .error .invalidPrice
    ∧ Err.invalidPrice.kind = ErrKind.invalidArgument
    ∧ (∀ t : BillingState, (t.apis apiId).provider = caller → caller ≠ 0 →
        ∃ t', updateApiConfig t caller apiId 0 meta' active = .ok t'
          ∧ (t'.apis apiId).provider = caller
          ∧ (t'.apis apiId).pricePerUnit = 0) := by
  refine ⟨?_, rfl, ?_⟩
  · unfold registerApi
    rw [if_neg (by simp [hfree]), if_neg htok, if_pos rfl]
  · intro t hprov hc0
    refine ⟨{ t with apis := upd t.apis apiId { t.apis apiId with pricePerUnit := 0, metadataURI := meta', active := active } }, ?_, ?_, ?_⟩
    · unfold updateApiConfig
      rw [if_neg (by simp [hprov]), if_neg (by simp [hprov, hc0])]
    · simp [upd, hprov]
    · simp [upd]

/-- Counterexample to **C5** as stated: registering API `1` at price `5` and
then updating it with price `0` are both accepted, reaching a state whose
API `1` is registered (`provider = 3`) with `pricePerUnit = 0`. -/
theorem price_validation_counterexample :
    registerApi s0 3 1 2 5 "m" = .ok regS
    ∧ updateApiConfig regS 3 1 0 "m" true = .ok updS
    ∧ (updS.apis 1).provider = 3
    ∧ (updS.apis 1).pricePerUnit = 0 :=
  ⟨rfl, rfl, rfl, rfl⟩

/-- Witness for `price_validation`: registering at price `0` on the empty
state fails with `"Invalid price"`. -/
theorem price_validation_witness :
    registerApi s0 3 1 2 0 "m" = .error .invalidPrice :=
  (price_validation s0 3 1 2 "m" "m2" true rfl (by decide)).1

/-- **C6 (amended).** For a well-formed request — consumer present, nonempty
and address-valid, `nonce`, `deadline` and `signature` present and truthy —
a `deadline` strictly before `nowSec` always fails with `"Signature expired"`,
regardless of the signature's validity (the `recover` function is arbitrary,
so this covers invalid signatures: the expiry check runs before recovery).
The malformed-consumer and missing-field checks, however, run *before* the
expiry check, so the claim's "regardless of malformed consumer or missing
fields" does not hold as stated. -/
theorem verify_expired (isAddress : String → Bool)
    (recover : CallMessage → String → String) (c sig : String)
    (nonce deadline apiId nowSec : Nat)
    (hc : c ≠ "") (ha : isAddress c = true) (hn : nonce ≠ 0) (hd : deadline ≠ 0)
    (hs : sig ≠ "") (hexp : deadline < nowSec) :
    verifySignedRequest isAddress recover ⟨some c, some nonce, some deadline, some sig⟩
      apiId nowSec = .error .signatureExpired := by
  unfold verifySignedRequest
  dsimp only
  rw [if_neg (by simp [hc, ha]), if_neg (by simp [hn, hd, hs]), if_pos hexp]

/-- Counterexample to **C6** as stated: a payload with a missing consumer and
a deadline (`5`) strictly before the current time (`10`) fails with the
malformed-consumer error, not with `Expired`. -/
theorem verify_expired_counterexample :
    (5 : Nat) < 10
    ∧ verifySignedRequest (fun _ => true) (fun _ _ => "")
        ⟨none, some 1, some 5, some "s"⟩ 0 10 = .error .missingOrInvalidConsumer
    ∧ VerifyErr.missingOrInvalidConsumer ≠ VerifyErr.signatureExpired :=
  ⟨by decide, rfl, by decide⟩

/-- Witness for `verify_expired`: a well-formed request whose recovery would
yield a different identity (invalid signature) still fails with
`"Signature expired"` when the deadline `5` is before now `10`. -/
theorem verify_expired_witness :
    verifySignedRequest (fun _ => true) (fun _ _ => "mallory")
      ⟨some "0xabc", some 1, some 5, some "zz"⟩ 7 10 = .error .signatureExpired :=
  verify_expired (fun _ => true) (fun _ _ => "mallory") "0xabc" "zz" 1 5 7 10
    (by decide) rfl (by decide) (by decide) (by decide) (by decide)

/-- **C9.** Presence of `nonce` and `deadline` is tested by JavaScript
truthiness, so a request carrying `nonce = 0` or `deadline = 0` — both
syntactically valid `uint256` values — is rejected with the missing-field
(`Malformed`) error `"Missing nonce/deadline/signature"`, even when the
consumer field is present and valid. -/
theorem verify_zero_field_missing (isAddress : String → Bool)
    (recover : CallMessage → String → String) (body : ReqBody) (c : String)
    (apiId nowSec : Nat) (hb : body.consumer = some c) (hc : c ≠ "")
    (ha : isAddress c = true)
    (h0 : body.nonce = some 0 ∨ body.deadline = some 0) :
    verifySignedRequest isAddress recover body apiId nowSec
      = .error .missingFields := by
  obtain ⟨co, no, dl, sg⟩ := body
  dsimp only at hb h0
  subst hb
  unfold verifySignedRequest
  dsimp only
  rw [if_neg (by simp [hc, ha])]
  rcases h0 with rfl | rfl
  · cases dl <;> cases sg <;> simp
  · cases no <;> cases sg <;> simp

/-- Witness for `verify_zero_field_missing`: a request with a valid consumer
but `nonce = 0` is rejected with the missing-field error. -/
theorem verify_zero_field_missing_witness :
    verifySignedRequest (fun _ => true) (fun _ _ => "r")
      ⟨some "0xabc", some 0, some 99, some "zz"⟩ 3 10 = .error .missingFields :=
  verify_zero_field_missing (fun _ => true) (fun _ _ => "r")
    ⟨some "0xabc", some 0, some 99, some "zz"⟩ "0xabc" 3 10 rfl (by decide) rfl
    (Or.inl rfl)

/-- **C8.** Along any sequence of ledger transactions, every usage record's
status only moves forward along `None → Reported → Settled` (its rank never
decreases, so no record is ever deleted or reverted), and once a record is
`Settled` no operation mutates any of its fields. -/
theorem usage_status_monotone (keccak : UsageKey → Nat) (s : BillingState)
    (ops : List Op) (u : Nat) :
    (s.usageRecords u).status.rank ≤ ((run keccak s ops).usageRecords u).status.rank
    ∧ ((s.usageRecords u).status = .Settled →
        (run keccak s ops).usageRecords u = s.usageRecords u) := by
  induction ops generalizing s with
  | nil => exact ⟨le_refl _, fun _ => rfl⟩
  | cons op rest ih =>
    have h1 := exec_step_usage keccak s op u
    have h2 := ih (exec keccak s op)
    refine ⟨le_trans h1.1 h2.1, ?_⟩
    intro hset
    have e1 := h1.2 hset
    have hset' : ((exec keccak s op).usageRecords u).status = .Settled := by
      rw [e1]
      exact hset
    have e2 := h2.2 hset'
    show (run keccak (exec keccak s op) rest).usageRecords u = s.usageRecords u
    rw [e2, e1]

/-- Witness for `usage_status_monotone`: reporting then settling on `sW`
never lowers record 77's status rank, and on `wSet` (record `wRepId` already
`Settled`) a further withdrawal transaction leaves the record untouched. -/
theorem usage_status_monotone_witness :
    (sW.usageRecords 77).status.rank
        ≤ ((run kW sW [.report 1 9 2 "r" 10 20, .settle 77]).usageRecords 77).status.rank
    ∧ (run kW wSet [.withdraw 3 1 1 9]).usageRecords wRepId
        = wSet.usageRecords wRepId :=
  ⟨(usage_status_monotone kW sW [.report 1 9 2 "r" 10 20, .settle 77] 77).1,
   (usage_status_monotone kW wSet [.withdraw 3 1 1 9] wRepId).2 rfl⟩

end X402
